import Mathlib

/-!
Verification development for the OsheenOracleDashboard session/auth subsystem.

The definitions below are a shallow embedding of the TypeScript source:
  - src/utils/api.ts (axios instance, request/response interceptors,
    setAuthToken, fetchData/postData/putData/deleteData),
  - src/components/ProtectedRoute.tsx (ProtectedLayout route guard and the
    AuthProvider login/logout operations),
  - src/app/login/page.tsx (handleSubmit client-side validation),
  - the Header and Sidebar components (fetchUserProfile and handleLogout).

Browser environment is assumed throughout (typeof window is not undefined).
localStorage is modelled by explicit state records; JSON serialization of the
user record is elided (the record itself is stored).
-/

namespace OsheenOracle

/-- A user record as used by AuthProvider and the login page
(fields _id, name, email, role; _id is written id here). -/
structure UserRec where
  id : String
  name : String
  email : String
  role : String
deriving Repr, DecidableEq

/-- The locally persisted session state together with the axios instance
default header: storedToken and storedUser model the localStorage keys
token and user; defaultsAuth models
api.defaults.headers.common .Authorization (none when the key is absent). -/
structure SessState where
  storedToken : Option String
  storedUser : Option UserRec
  defaultsAuth : Option String
deriving Repr, DecidableEq

/-- The state at process start: nothing persisted, no default header. -/
def initState : SessState := ⟨none, none, none⟩

/-- An axios response carried inside an error (error.response). -/
structure Response where
  status : Nat
deriving Repr, DecidableEq

/-- An axios error: response is present for HTTP-status failures and absent
for transport failures (network unreachable, timeout). -/
structure AxiosError where
  response : Option Response
  message : String
deriving Repr, DecidableEq

/-- error.response?.status — the optional-chained status of an error. -/
def statusOf (e : AxiosError) : Option Nat := e.response.map (fun r => r.status)

/-- setAuthToken (src/utils/api.ts lines 52-58): if the token is truthy,
set the default Authorization header to Bearer token, else delete it.
JS truthiness makes the empty string falsy, so some "" also deletes. -/
def setAuthToken (token : Option String) : Option String :=
  match token with
  | some t => if t = "" then none else some ("Bearer " ++ t)
  | none => none

/-- The result of running the response-error interceptor and then the
helper catch block: the updated local state, whether the clear-and-redirect
block ran, and the error with which the promise is rejected. -/
structure InterceptOut where
  store : SessState
  cleared : Bool
  navigatedToLogin : Bool
  rejected : AxiosError
deriving Repr, DecidableEq

/-- The response-error interceptor (src/utils/api.ts lines 32-49): when
error.response?.status is 401 and window.location.pathname is not /login,
remove the token and user keys from localStorage and replace the location
with /login; in every case reject the promise with the original error.
The default header is never touched here. -/
def responseErrorInterceptor (e : AxiosError) (currentPath : String)
    (s : SessState) : InterceptOut :=
  if statusOf e = some 401 then
    if currentPath = "/login" then
      ⟨s, false, false, e⟩
    else
      ⟨{ s with storedToken := none, storedUser := none }, true, true, e⟩
  else
    ⟨s, false, false, e⟩

/-- The catch block shared by fetchData, postData, putData and deleteData
(src/utils/api.ts lines 75-79, 92-96, 109-113, 123-127): log the error and
rethrow the very same error object. -/
def helperCatch (err : AxiosError) : AxiosError := err

/-- The error path of any call through the Request Client helpers: the
rejected response first runs through the response-error interceptor, then
the helper catch block rethrows the error to the caller. -/
def helperErrorFlow (e : AxiosError) (currentPath : String)
    (s : SessState) : InterceptOut :=
  let r := responseErrorInterceptor e currentPath s
  { r with rejected := helperCatch r.rejected }

/-- C1: for every error response seen by the Request Client helpers, the
persisted session state is cleared and a navigation to /login is issued if
and only if the status is 401 and the current path is not /login, and in
every error case the original error is rethrown to the caller unmodified. -/
theorem c1_helper_error_path (e : AxiosError) (p : String) (s : SessState) :
    (((helperErrorFlow e p s).cleared = true ∧
        (helperErrorFlow e p s).navigatedToLogin = true) ↔
      (statusOf e = some 401 ∧ p ≠ "/login"))
    ∧ (statusOf e = some 401 ∧ p ≠ "/login" →
        (helperErrorFlow e p s).store.storedToken = none ∧
        (helperErrorFlow e p s).store.storedUser = none)
    ∧ (¬ (statusOf e = some 401 ∧ p ≠ "/login") →
        (helperErrorFlow e p s).store = s)
    ∧ (helperErrorFlow e p s).rejected = e := by
  by_cases hs : statusOf e = some 401 <;> by_cases hp : p = "/login" <;>
    simp [helperErrorFlow, responseErrorInterceptor, helperCatch, hs, hp]

/-- C1 witness: a 401 error at /dashboard clears the state, navigates to
/login and rethrows the original error. -/
theorem c1_helper_error_path_witness :
    (((helperErrorFlow ⟨some ⟨401⟩, "unauthorized"⟩ "/dashboard"
        ⟨some "tok", some ⟨"u1", "A", "a@b.c", "admin"⟩, some "Bearer tok"⟩).cleared = true ∧
      (helperErrorFlow ⟨some ⟨401⟩, "unauthorized"⟩ "/dashboard"
        ⟨some "tok", some ⟨"u1", "A", "a@b.c", "admin"⟩, some "Bearer tok"⟩).navigatedToLogin = true) ↔
      (statusOf ⟨some ⟨401⟩, "unauthorized"⟩ = some 401 ∧ "/dashboard" ≠ "/login"))
    ∧ (statusOf ⟨some ⟨401⟩, "unauthorized"⟩ = some 401 ∧ "/dashboard" ≠ "/login" →
        (helperErrorFlow ⟨some ⟨401⟩, "unauthorized"⟩ "/dashboard"
          ⟨some "tok", some ⟨"u1", "A", "a@b.c", "admin"⟩, some "Bearer tok"⟩).store.storedToken = none ∧
        (helperErrorFlow ⟨some ⟨401⟩, "unauthorized"⟩ "/dashboard"
          ⟨some "tok", some ⟨"u1", "A", "a@b.c", "admin"⟩, some "Bearer tok"⟩).store.storedUser = none)
    ∧ (¬ (statusOf ⟨some ⟨401⟩, "unauthorized"⟩ = some 401 ∧ "/dashboard" ≠ "/login") →
        (helperErrorFlow ⟨some ⟨401⟩, "unauthorized"⟩ "/dashboard"
          ⟨some "tok", some ⟨"u1", "A", "a@b.c", "admin"⟩, some "Bearer tok"⟩).store =
          ⟨some "tok", some ⟨"u1", "A", "a@b.c", "admin"⟩, some "Bearer tok"⟩)
    ∧ (helperErrorFlow ⟨some ⟨401⟩, "unauthorized"⟩ "/dashboard"
        ⟨some "tok", some ⟨"u1", "A", "a@b.c", "admin"⟩, some "Bearer tok"⟩).rejected =
        ⟨some ⟨401⟩, "unauthorized"⟩ :=
  c1_helper_error_path ⟨some ⟨401⟩, "unauthorized"⟩ "/dashboard"
    ⟨some "tok", some ⟨"u1", "A", "a@b.c", "admin"⟩, some "Bearer tok"⟩

/-- The request interceptor (src/utils/api.ts lines 15-29): axios first
merges the instance defaults into the per-request config, so the config
Authorization header starts as the default one; the interceptor then reads
the token from localStorage at dispatch time and, when truthy, overwrites
the Authorization header with Bearer token. When no token is stored — and
also when the stored token is the empty string, which the JS truthiness
guard on line 20 treats as absent — the header is left as it came from the
defaults. -/
def requestInterceptor (storedToken : Option String)
    (configAuth : Option String) : Option String :=
  match storedToken with
  | some t => if t = "" then configAuth else some ("Bearer " ++ t)
  | none => configAuth

/-- The Authorization header a request dispatched in state s carries: the
request interceptor applied to the dispatch-time stored token and the
dispatch-time merged default header. -/
def dispatchHeader (s : SessState) : Option String :=
  requestInterceptor s.storedToken s.defaultsAuth

/-- The successful-login state update (AuthProvider.login,
src/components/ProtectedRoute.tsx lines 89-93, and the login page
handleSubmit lines 82-86): persist token and user to localStorage and call
setAuthToken with the new token. -/
def loginStep (t : String) (u : UserRec) (_s : SessState) : SessState :=
  { storedToken := some t, storedUser := some u,
    defaultsAuth := setAuthToken (some t) }

/-- The Session Controller logout state update (AuthProvider.logout,
src/components/ProtectedRoute.tsx lines 102-109): remove token and user
from localStorage and call setAuthToken null, deleting the default header. -/
def logoutCtrlStep (_s : SessState) : SessState :=
  { storedToken := none, storedUser := none, defaultsAuth := setAuthToken none }

/-- The Sidebar handleLogout catch branch (src/unnamed/part_000 lines
470-474): when the remote logout call throws, clear localStorage and
router.push to /login — setAuthToken null is NOT called, and router.push is
a client-side navigation, so the default header survives unchanged. -/
def sidebarLogoutFallback (s : SessState) : SessState :=
  { storedToken := none, storedUser := none, defaultsAuth := s.defaultsAuth }

/-- The configured-header invariant claimed by the spec: the default
Authorization header equals Bearer of the stored token, both or neither. -/
def headerMatchesB (s : SessState) : Bool :=
  s.defaultsAuth == s.storedToken.map (fun t => "Bearer " ++ t)

/-- A reachable state in which the stored token is absent while the default
header is still configured: a logged-in session hit by the reactive 401
handler away from /login (the handler clears localStorage but does not
touch the default header). -/
def staleHeaderState : SessState :=
  (responseErrorInterceptor ⟨some ⟨401⟩, "unauthorized"⟩ "/dashboard"
    (loginStep "abc" ⟨"u1", "A", "a@b.c", "admin"⟩ initState)).store

/-- C2 counterexample: in the reachable state staleHeaderState no token is
stored, yet a request dispatched there still carries the stale default
Authorization header — refuting the clause that a request carries no
Authorization header when no token is present in the Credential Store. -/
theorem c2_counterexample :
    staleHeaderState.storedToken = none ∧
    dispatchHeader staleHeaderState = some "Bearer abc" := by
  constructor <;> rfl

/-- C2 amended: a request dispatched in state s carries Bearer t for the
non-empty token t stored at dispatch time; when no token is stored — and
also when the stored token is the empty string, which the interceptor
truthiness guard treats as absent — the header equals the dispatch-time
configured default header (so it is absent only when that default is also
absent). The header is a function of the dispatch-time state alone, so
later changes of the stored token cannot alter the header of an
already-dispatched request. -/
theorem c2_dispatch_header_amended (s : SessState) :
    (∀ t, s.storedToken = some t → t ≠ "" →
      dispatchHeader s = some ("Bearer " ++ t))
    ∧ (s.storedToken = none → dispatchHeader s = s.defaultsAuth)
    ∧ (s.storedToken = some "" → dispatchHeader s = s.defaultsAuth) := by
  refine ⟨?_, ?_, ?_⟩
  · intro t ht hne
    simp [dispatchHeader, requestInterceptor, ht, hne]
  · intro h
    simp [dispatchHeader, requestInterceptor, h]
  · intro h
    simp [dispatchHeader, requestInterceptor, h]

/-- C2 witness: in a logged-in state the dispatched header is Bearer abc. -/
theorem c2_dispatch_header_amended_witness :
    (∀ t, (loginStep "abc" ⟨"u1", "A", "a@b.c", "admin"⟩ initState).storedToken = some t →
      t ≠ "" →
      dispatchHeader (loginStep "abc" ⟨"u1", "A", "a@b.c", "admin"⟩ initState) =
        some ("Bearer " ++ t))
    ∧ ((loginStep "abc" ⟨"u1", "A", "a@b.c", "admin"⟩ initState).storedToken = none →
      dispatchHeader (loginStep "abc" ⟨"u1", "A", "a@b.c", "admin"⟩ initState) =
        (loginStep "abc" ⟨"u1", "A", "a@b.c", "admin"⟩ initState).defaultsAuth)
    ∧ ((loginStep "abc" ⟨"u1", "A", "a@b.c", "admin"⟩ initState).storedToken = some "" →
      dispatchHeader (loginStep "abc" ⟨"u1", "A", "a@b.c", "admin"⟩ initState) =
        (loginStep "abc" ⟨"u1", "A", "a@b.c", "admin"⟩ initState).defaultsAuth) :=
  c2_dispatch_header_amended (loginStep "abc" ⟨"u1", "A", "a@b.c", "admin"⟩ initState)

/-- C3 counterexample: starting from a logged-in state with matching header
and store, the reactive 401 handler clears the stored token without
clearing the configured default header, so after that step the configured
header no longer matches the Credential Store token — refuting the claim
that every operation clearing the stored token also clears the header in
the same step. -/
theorem c3_counterexample :
    headerMatchesB (loginStep "abc" ⟨"u1", "A", "a@b.c", "admin"⟩ initState) = true ∧
    headerMatchesB staleHeaderState = false := by
  constructor <;> rfl

/-- C3 amended: the user-initiated operations keep the pairing — a login
with a non-empty token sets the stored token and the configured header
together, and the Session Controller logout clears both together — but the
reactive 401 handler (and the Sidebar logout fallback branch) clears the
stored token while leaving the configured header unchanged. -/
theorem c3_paired_update_amended (s : SessState) (t : String) (u : UserRec)
    (h : t ≠ "") :
    headerMatchesB (loginStep t u s) = true
    ∧ headerMatchesB (logoutCtrlStep s) = true
    ∧ (sidebarLogoutFallback s).storedToken = none
    ∧ (sidebarLogoutFallback s).defaultsAuth = s.defaultsAuth := by
  refine ⟨?_, ?_, rfl, rfl⟩
  · simp [headerMatchesB, loginStep, setAuthToken, h]
  · simp [headerMatchesB, logoutCtrlStep, setAuthToken]

/-- C3 witness: the amended statement at token abc from the initial state. -/
theorem c3_paired_update_amended_witness :
    headerMatchesB (loginStep "abc" ⟨"u2", "B", "b@c.d", "admin"⟩ initState) = true
    ∧ headerMatchesB (logoutCtrlStep initState) = true
    ∧ (sidebarLogoutFallback initState).storedToken = none
    ∧ (sidebarLogoutFallback initState).defaultsAuth = initState.defaultsAuth :=
  c3_paired_update_amended initState "abc" ⟨"u2", "B", "b@c.d", "admin"⟩
    (by decide)

/-- What a protected-screen mount renders. -/
inductive Rendered where
  | nothing
  | children
deriving Repr, DecidableEq

/-- The authentication check of ProtectedLayout
(src/components/ProtectedRoute.tsx line 17): Boolean(token) in JS, which is
false exactly when the token is null or the empty string. -/
def isAuthenticated (tok : Option String) : Bool :=
  match tok with
  | none => false
  | some t => t != ""

/-- The observable outcome of mounting a protected screen. -/
structure MountOut where
  rendered : Rendered
  redirectsToLogin : Nat
  networkCalls : Nat
deriving Repr, DecidableEq

/-- ProtectedLayout mount (src/components/ProtectedRoute.tsx lines 6-31):
the token is read synchronously from localStorage; the effect runs once
after mount and issues router.replace to /login exactly when not
authenticated; the render is null when not authenticated and the children
otherwise. The component performs no network call, which the networkCalls
count records. -/
def protectedMount (tok : Option String) : MountOut :=
  if isAuthenticated tok then
    { rendered := Rendered.children, redirectsToLogin := 0, networkCalls := 0 }
  else
    { rendered := Rendered.nothing, redirectsToLogin := 1, networkCalls := 0 }

/-- C4 counterexample: with an empty-string token persisted under the token
key, a credential is persisted (the stored value is not null) yet the mount
renders nothing and redirects to /login, because Boolean of the empty
string is false — refuting the clause that a persisted credential always
renders the children. -/
theorem c4_counterexample :
    (some "" : Option String) ≠ none ∧
    (protectedMount (some "")).rendered = Rendered.nothing ∧
    (protectedMount (some "")).redirectsToLogin = 1 := by
  refine ⟨by decide, rfl, rfl⟩

/-- C4 amended: every protected-screen mount reads only the local store and
performs zero network calls; when no credential or an empty-string
credential is persisted, the mount renders no children and issues exactly
one redirect to /login; when a non-empty credential is persisted, it
renders the children with no redirect. -/
theorem c4_route_guard_amended (tok : Option String) :
    (protectedMount tok).networkCalls = 0
    ∧ (isAuthenticated tok = false →
        (protectedMount tok).rendered = Rendered.nothing ∧
        (protectedMount tok).redirectsToLogin = 1)
    ∧ (isAuthenticated tok = true →
        (protectedMount tok).rendered = Rendered.children ∧
        (protectedMount tok).redirectsToLogin = 0)
    ∧ (tok = none → isAuthenticated tok = false)
    ∧ (∀ t, tok = some t → t ≠ "" → isAuthenticated tok = true) := by
  refine ⟨?_, ?_, ?_, ?_, ?_⟩
  · by_cases h : isAuthenticated tok = true <;> simp [protectedMount, h]
  · intro h; simp [protectedMount, h]
  · intro h; simp [protectedMount, h]
  · intro h; simp [isAuthenticated, h]
  · intro t ht hne; simp [isAuthenticated, ht, hne]

/-- C4 witness: mounting with no persisted token renders nothing and
issues exactly one redirect, with zero network calls. -/
theorem c4_route_guard_amended_witness :
    (protectedMount none).networkCalls = 0
    ∧ (isAuthenticated none = false →
        (protectedMount none).rendered = Rendered.nothing ∧
        (protectedMount none).redirectsToLogin = 1)
    ∧ (isAuthenticated none = true →
        (protectedMount none).rendered = Rendered.children ∧
        (protectedMount none).redirectsToLogin = 0)
    ∧ ((none : Option String) = none → isAuthenticated none = false)
    ∧ (∀ t, (none : Option String) = some t → t ≠ "" → isAuthenticated none = true) :=
  c4_route_guard_amended none

/-- The body of a successful login response: token plus user record. -/
structure LoginResponse where
  token : String
  user : UserRec
deriving Repr, DecidableEq

/-- The AuthProvider component state together with the shared session
state: ctxUser and ctxToken are the React context values. -/
structure CtxState where
  sess : SessState
  ctxUser : Option UserRec
  ctxToken : Option String
deriving Repr, DecidableEq

/-- The value a login call resolves with, next to the updated state. -/
structure LoginOut where
  state : CtxState
  returned : Option UserRec
deriving Repr, DecidableEq

/-- AuthProvider.login success path (src/components/ProtectedRoute.tsx
lines 85-93): persist token and user to localStorage, set the context user
and token, call setAuthToken with the new token. The function body has no
return statement, so the promise resolves with undefined — modelled as a
returned value of none. -/
def authLoginSuccess (st : CtxState) (resp : LoginResponse) : LoginOut :=
  { state :=
      { sess := loginStep resp.token resp.user st.sess,
        ctxUser := some resp.user,
        ctxToken := some resp.token },
    returned := none }

/-- C5 counterexample: a successful login with token abc does not return
the user to the caller — the login promise resolves with no value — so the
clause that the user is returned to the caller is refuted at this input. -/
theorem c5_counterexample :
    (authLoginSuccess ⟨initState, none, none⟩
        ⟨"abc", ⟨"u1", "A", "a@b.c", "admin"⟩⟩).returned = none ∧
    (authLoginSuccess ⟨initState, none, none⟩
        ⟨"abc", ⟨"u1", "A", "a@b.c", "admin"⟩⟩).returned ≠
      some ⟨"u1", "A", "a@b.c", "admin"⟩ := by
  refine ⟨rfl, by decide⟩

/-- C5 amended: on a successful login with a non-empty token, the returned
token is persisted to the store, the returned user record is persisted,
the default header is configured to Bearer token and the user is stored in
the session context state — but the login function resolves with no value
instead of returning the user. -/
theorem c5_login_success_amended (st : CtxState) (resp : LoginResponse)
    (h : resp.token ≠ "") :
    (authLoginSuccess st resp).state.sess.storedToken = some resp.token
    ∧ (authLoginSuccess st resp).state.sess.storedUser = some resp.user
    ∧ (authLoginSuccess st resp).state.sess.defaultsAuth =
        some ("Bearer " ++ resp.token)
    ∧ (authLoginSuccess st resp).state.ctxUser = some resp.user
    ∧ (authLoginSuccess st resp).returned = none := by
  refine ⟨rfl, rfl, ?_, rfl, rfl⟩
  simp [authLoginSuccess, loginStep, setAuthToken, h]

/-- C5 witness: the amended statement for the stubbed response with token
abc from the spec example. -/
theorem c5_login_success_amended_witness :
    (authLoginSuccess ⟨initState, none, none⟩
        ⟨"abc", ⟨"u1", "A", "a@b.c", "admin"⟩⟩).state.sess.storedToken = some "abc"
    ∧ (authLoginSuccess ⟨initState, none, none⟩
        ⟨"abc", ⟨"u1", "A", "a@b.c", "admin"⟩⟩).state.sess.storedUser =
        some ⟨"u1", "A", "a@b.c", "admin"⟩
    ∧ (authLoginSuccess ⟨initState, none, none⟩
        ⟨"abc", ⟨"u1", "A", "a@b.c", "admin"⟩⟩).state.sess.defaultsAuth =
        some ("Bearer " ++ "abc")
    ∧ (authLoginSuccess ⟨initState, none, none⟩
        ⟨"abc", ⟨"u1", "A", "a@b.c", "admin"⟩⟩).state.ctxUser =
        some ⟨"u1", "A", "a@b.c", "admin"⟩
    ∧ (authLoginSuccess ⟨initState, none, none⟩
        ⟨"abc", ⟨"u1", "A", "a@b.c", "admin"⟩⟩).returned = none :=
  c5_login_success_amended ⟨initState, none, none⟩
    ⟨"abc", ⟨"u1", "A", "a@b.c", "admin"⟩⟩ (by decide)

/-- A character admitted by the regex class excluding whitespace and the
at sign (written as a negated class in the source pattern). -/
def atomChar (c : Char) : Bool := !c.isWhitespace && c != '@'

/-- A non-empty run of atomChar characters (one-or-more quantifier). -/
def atomSeg (l : List Char) : Bool := !l.isEmpty && l.all atomChar

/-- Whether a character list matches the domain part of the login page
email pattern: a non-empty atom run, a literal dot, a non-empty atom run.
Matching is the existence of a split at some dot position. -/
def domainMatch (l : List Char) : Bool :=
  (List.range l.length).any (fun i =>
    l[i]? == some '.' && atomSeg (l.take i) && atomSeg (l.drop (i + 1)))

/-- The anchored email pattern of the login page (src/app/login/page.tsx
line 59): one-or-more non-whitespace non-at characters, an at sign,
one-or-more such characters, a dot, one-or-more such characters. A string
matches exactly when it splits at some at-sign position into an atom run
and a matching domain part. -/
def emailRegexTest (s : String) : Bool :=
  (List.range s.data.length).any (fun i =>
    s.data[i]? == some '@' && atomSeg (s.data.take i) &&
      domainMatch (s.data.drop (i + 1)))

/-- The observable outcome of submitting the login form. -/
inductive SubmitOutcome where
  | ignored
  | validationError (msg : String)
  | networkLogin (email password : String)
deriving Repr, DecidableEq

/-- Whether a submit outcome dispatched a network request. -/
def isNetworkCall : SubmitOutcome → Bool
  | SubmitOutcome.networkLogin _ _ => true
  | _ => false

/-- The JS trim operation used on form fields: remove leading and trailing
whitespace from the string. -/
def jsTrim (s : String) : String :=
  ⟨((s.data.dropWhile Char.isWhitespace).reverse.dropWhile
      Char.isWhitespace).reverse⟩

/-- Trimming the empty string yields the empty string. -/
theorem jsTrim_nil : jsTrim "" = "" := rfl

/-- The login page handleSubmit up to the point of dispatch
(src/app/login/page.tsx lines 47-77): a re-entrant submit while loading is
dropped; then empty (after trim) email or password is rejected with a
validation toast; then an email failing the pattern is rejected with a
validation toast; otherwise the login request is dispatched. -/
def handleSubmit (loading : Bool) (email password : String) : SubmitOutcome :=
  if loading then SubmitOutcome.ignored
  else if jsTrim email == "" || jsTrim password == "" then
    SubmitOutcome.validationError "Please fill in all fields"
  else if !emailRegexTest email then
    SubmitOutcome.validationError "Please enter a valid email address"
  else SubmitOutcome.networkLogin email password

/-- A dispatched network request of the Session Controller login. -/
structure NetworkCall where
  path : String
  bodyEmail : String
  bodyPassword : String
deriving Repr, DecidableEq

/-- AuthProvider.login request dispatch (src/components/ProtectedRoute.tsx
lines 82-88): the function performs no validation of its arguments and
always posts them to /auth/login. -/
def authLoginRequest (email password : String) : Option NetworkCall :=
  some { path := "/auth/login", bodyEmail := email, bodyPassword := password }

/-- C6 counterexample: the Session Controller login invoked with email bad
and an empty password dispatches the network request anyway — refuting the
claim that every login invocation with an empty password is rejected with
a validation error before any request is dispatched. -/
theorem c6_counterexample :
    authLoginRequest "bad" "" =
      some { path := "/auth/login", bodyEmail := "bad", bodyPassword := "" } ∧
    authLoginRequest "bad" "" ≠ none := by
  refine ⟨rfl, by decide⟩

/-- C6 amended: client-side validation lives in the login screen submit
handler: for a submission whose email or password is empty or whose email
fails the pattern, no network call is issued, and unless the submission is
dropped by the re-entrancy guard it is rejected with a validation error;
the Session Controller login function itself performs no validation. -/
theorem c6_validation_amended (loading : Bool) (email password : String)
    (h : email = "" ∨ password = "" ∨ emailRegexTest email = false) :
    isNetworkCall (handleSubmit loading email password) = false
    ∧ (loading = false →
        ∃ m, handleSubmit loading email password = SubmitOutcome.validationError m) := by
  have key : ∃ m, handleSubmit false email password =
      SubmitOutcome.validationError m := by
    by_cases he : (jsTrim email == "" || jsTrim password == "") = true
    · refine ⟨"Please fill in all fields", ?_⟩
      simp [handleSubmit, he]
    · have hr : emailRegexTest email = false := by
        rcases h with h | h | h
        · exact absurd (by simp [h, jsTrim_nil]) he
        · exact absurd (by simp [h, jsTrim_nil]) he
        · exact h
      refine ⟨"Please enter a valid email address", ?_⟩
      simp [handleSubmit, he, hr]
  constructor
  · cases loading with
    | true => rfl
    | false =>
      obtain ⟨m, hm⟩ := key
      rw [hm]
      rfl
  · intro hl
    subst hl
    exact key

/-- C6 witness: the spec example submission with email bad and empty
password issues no network call and is rejected with a validation error. -/
theorem c6_validation_amended_witness :
    isNetworkCall (handleSubmit false "bad" "") = false
    ∧ (false = false →
        ∃ m, handleSubmit false "bad" "" = SubmitOutcome.validationError m) :=
  c6_validation_amended false "bad" "" (Or.inr (Or.inl rfl))

/-- A failing login call through AuthProvider.login: the rejected response
first runs through the response-error interceptor (which may clear the
persisted state and navigate when the status is 401 away from /login), then
the postData catch and the AuthProvider catch both rethrow the same error.
The context user and token are not written on the failure path. -/
def authLoginFailure (st : CtxState) (currentPath : String)
    (e : AxiosError) : CtxState × AxiosError :=
  let r := responseErrorInterceptor e currentPath st.sess
  ({ st with sess := r.store }, helperCatch r.rejected)

/-- C7 counterexample: a login attempt that fails with 401 while the
current path is /dashboard does not leave the prior session state
untouched — the global 401 handler clears the stored token and user — so
the claim that every failing login leaves prior state exactly as it was is
refuted at this input. -/
theorem c7_counterexample :
    (authLoginFailure
        ⟨⟨some "old", some ⟨"u1", "A", "a@b.c", "admin"⟩, some "Bearer old"⟩,
          some ⟨"u1", "A", "a@b.c", "admin"⟩, some "old"⟩
        "/dashboard" ⟨some ⟨401⟩, "unauthorized"⟩).1 ≠
      ⟨⟨some "old", some ⟨"u1", "A", "a@b.c", "admin"⟩, some "Bearer old"⟩,
        some ⟨"u1", "A", "a@b.c", "admin"⟩, some "old"⟩ ∧
    (authLoginFailure
        ⟨⟨some "old", some ⟨"u1", "A", "a@b.c", "admin"⟩, some "Bearer old"⟩,
          some ⟨"u1", "A", "a@b.c", "admin"⟩, some "old"⟩
        "/dashboard" ⟨some ⟨401⟩, "unauthorized"⟩).1.sess.storedToken = none := by
  refine ⟨by decide, rfl⟩

/-- C7 amended: a failing login surfaces the original error to the caller
unmodified, and leaves the prior session state exactly as it was, provided
the failure is not a 401 received while the current path is away from
/login (in that remaining case the global 401 handler clears the stored
token and user). Logins submitted from the login screen always satisfy
the proviso. -/
theorem c7_login_failure_amended (st : CtxState) (p : String) (e : AxiosError)
    (h : statusOf e ≠ some 401 ∨ p = "/login") :
    (authLoginFailure st p e).1 = st ∧ (authLoginFailure st p e).2 = e := by
  rcases h with h | h
  · simp [authLoginFailure, responseErrorInterceptor, helperCatch, h]
  · subst h
    by_cases hs : statusOf e = some 401 <;>
      simp [authLoginFailure, responseErrorInterceptor, helperCatch, hs]

/-- C7 witness: a 401 failure on the login screen itself leaves the state
unchanged and rethrows the original error. -/
theorem c7_login_failure_amended_witness :
    (authLoginFailure
        ⟨⟨some "old", some ⟨"u1", "A", "a@b.c", "admin"⟩, some "Bearer old"⟩,
          some ⟨"u1", "A", "a@b.c", "admin"⟩, some "old"⟩
        "/login" ⟨some ⟨401⟩, "bad credentials"⟩).1 =
      ⟨⟨some "old", some ⟨"u1", "A", "a@b.c", "admin"⟩, some "Bearer old"⟩,
        some ⟨"u1", "A", "a@b.c", "admin"⟩, some "old"⟩ ∧
    (authLoginFailure
        ⟨⟨some "old", some ⟨"u1", "A", "a@b.c", "admin"⟩, some "Bearer old"⟩,
          some ⟨"u1", "A", "a@b.c", "admin"⟩, some "old"⟩
        "/login" ⟨some ⟨401⟩, "bad credentials"⟩).2 =
      ⟨some ⟨401⟩, "bad credentials"⟩ :=
  c7_login_failure_amended
    ⟨⟨some "old", some ⟨"u1", "A", "a@b.c", "admin"⟩, some "Bearer old"⟩,
      some ⟨"u1", "A", "a@b.c", "admin"⟩, some "old"⟩
    "/login" ⟨some ⟨401⟩, "bad credentials"⟩ (Or.inr rfl)

/-- The observable outcome of a logout operation. -/
structure LogoutOut where
  state : CtxState
  remoteCalls : List String
  navigatedTo : Option String
  threw : Bool
deriving Repr, DecidableEq

/-- AuthProvider.logout (src/components/ProtectedRoute.tsx lines 102-109):
remove token and user from localStorage, null the context user and token,
call setAuthToken null (deleting the default header) and router.push to
/login. The body contains no remote API call and cannot throw. -/
def authLogout (_st : CtxState) : LogoutOut :=
  { state :=
      { sess := { storedToken := none, storedUser := none,
                  defaultsAuth := setAuthToken none },
        ctxUser := none, ctxToken := none },
    remoteCalls := [], navigatedTo := some "/login", threw := false }

/-- The observable outcome of the Header component logout handler. -/
structure HeaderLogoutOut where
  sess : SessState
  remoteCalls : List String
  navigatedTo : Option String
  threw : Bool
deriving Repr, DecidableEq

/-- The Header handleLogout (src/unnamed/part_001 lines 94-109): call the
remote /auth/logout endpoint inside a try whose catch only logs, then in
the finally block clear localStorage and sessionStorage and replace the
location with /login. The outcome is the same whether or not the remote
call fails, no exception escapes, and the axios default header is not
touched in this step (the full-page navigation is what resets it). -/
def headerLogout (_remoteFails : Bool) (s : SessState) : HeaderLogoutOut :=
  { sess := { storedToken := none, storedUser := none,
              defaultsAuth := s.defaultsAuth },
    remoteCalls := ["/auth/logout"], navigatedTo := some "/login",
    threw := false }

/-- C8 counterexample: the Session Controller logout performs no remote
call at all — its list of remote calls is empty — refuting the claim that
every logout invocation calls the remote logout endpoint. -/
theorem c8_counterexample :
    (authLogout ⟨⟨some "tok", some ⟨"u1", "A", "a@b.c", "admin"⟩,
        some "Bearer tok"⟩, some ⟨"u1", "A", "a@b.c", "admin"⟩,
        some "tok"⟩).remoteCalls = [] ∧
    (authLogout ⟨⟨some "tok", some ⟨"u1", "A", "a@b.c", "admin"⟩,
        some "Bearer tok"⟩, some ⟨"u1", "A", "a@b.c", "admin"⟩,
        some "tok"⟩).remoteCalls ≠ ["/auth/logout"] := by
  refine ⟨rfl, by decide⟩

/-- C8 amended: the Session Controller logout makes no remote call; it
unconditionally clears the Credential Store and the default Authorization
header, navigates to /login and never throws. The Header component logout
handler is the one that calls the remote /auth/logout endpoint
best-effort: whether or not that call fails, it clears the stored token
and user, navigates to /login and lets no exception propagate, leaving the
default header to be reset by the ensuing full-page navigation. -/
theorem c8_logout_amended (st : CtxState) (b : Bool) (s : SessState) :
    (authLogout st).remoteCalls = []
    ∧ (authLogout st).state.sess.storedToken = none
    ∧ (authLogout st).state.sess.storedUser = none
    ∧ (authLogout st).state.sess.defaultsAuth = none
    ∧ (authLogout st).navigatedTo = some "/login"
    ∧ (authLogout st).threw = false
    ∧ (headerLogout b s).remoteCalls = ["/auth/logout"]
    ∧ (headerLogout b s).sess.storedToken = none
    ∧ (headerLogout b s).sess.storedUser = none
    ∧ (headerLogout b s).navigatedTo = some "/login"
    ∧ (headerLogout b s).threw = false :=
  ⟨rfl, rfl, rfl, rfl, rfl, rfl, rfl, rfl, rfl, rfl, rfl⟩

/-- A request as assembled by the Request Client helpers, recording the
method, the endpoint and any cache directive header attached. -/
structure BuiltRequest where
  method : String
  endpoint : String
  cacheControl : Option String
deriving Repr, DecidableEq

/-- fetchData request assembly (src/utils/api.ts lines 63-73): the noCache
parameter defaults to true, and when set the request carries a
Cache-Control no-cache header. -/
def fetchDataRequest (endpoint : String) (noCache : Bool := true) :
    BuiltRequest :=
  { method := "GET", endpoint := endpoint,
    cacheControl := if noCache then some "no-cache" else none }

/-- postData request assembly (src/utils/api.ts lines 85-91): a plain POST
with no cache-related option or header. -/
def postDataRequest (endpoint : String) : BuiltRequest :=
  { method := "POST", endpoint := endpoint, cacheControl := none }

/-- putData request assembly (src/utils/api.ts lines 102-108): a plain PUT
with no cache-related option or header. -/
def putDataRequest (endpoint : String) : BuiltRequest :=
  { method := "PUT", endpoint := endpoint, cacheControl := none }

/-- deleteData request assembly (src/utils/api.ts lines 119-122): a plain
DELETE with no cache-related option or header. -/
def deleteDataRequest (endpoint : String) : BuiltRequest :=
  { method := "DELETE", endpoint := endpoint, cacheControl := none }

/-- C9 counterexample: a POST issued through postData with default
arguments carries no cache-disabling directive — refuting the claim that
every request through get, post, put and delete disables intermediary
caching by default. -/
theorem c9_counterexample :
    (postDataRequest "/benefits").cacheControl = none ∧
    (postDataRequest "/benefits").cacheControl ≠ some "no-cache" := by
  refine ⟨rfl, by decide⟩

/-- C9 amended: only GET requests through fetchData disable intermediary
caching by default (a Cache-Control no-cache header, suppressible by
passing noCache false); POST, PUT and DELETE requests attach no
cache-disabling directive. -/
theorem c9_cache_default_amended (ep : String) :
    (fetchDataRequest ep).cacheControl = some "no-cache"
    ∧ (fetchDataRequest ep false).cacheControl = none
    ∧ (postDataRequest ep).cacheControl = none
    ∧ (putDataRequest ep).cacheControl = none
    ∧ (deleteDataRequest ep).cacheControl = none :=
  ⟨rfl, rfl, rfl, rfl, rfl⟩

/-- The user record displayed by the Header component. -/
structure UserData where
  id : String
  name : String
  email : String
  role : Option String
deriving Repr, DecidableEq

/-- The hardcoded fallback record of the Header fetchUserProfile
(src/unnamed/part_001 lines 66-73); the createdAt and updatedAt fields,
set to the current time in the source, are elided. -/
def adminPlaceholder : UserData :=
  { id := "default-id", name := "Admin User", email := "admin@astro.com",
    role := some "Admin" }

/-- The observable outcome of the Header profile fetch. -/
structure ProfileOut where
  userData : Option UserData
  surfacedError : Option AxiosError
  storageCleared : Bool
  navigatedTo : Option String
deriving Repr, DecidableEq

/-- The Header fetchUserProfile (src/unnamed/part_001 lines 50-77): on
success store the fetched record; on any error swallow it (only logged),
additionally clearing localStorage and navigating to /login when the
status is 401, and in every error case fall through to storing the
hardcoded placeholder record. -/
def headerFetchUserProfile (result : Except AxiosError UserData) :
    ProfileOut :=
  match result with
  | Except.ok u =>
      { userData := some u, surfacedError := none, storageCleared := false,
        navigatedTo := none }
  | Except.error e =>
      if statusOf e = some 401 then
        { userData := some adminPlaceholder, surfacedError := none,
          storageCleared := true, navigatedTo := some "/login" }
      else
        { userData := some adminPlaceholder, surfacedError := none,
          storageCleared := false, navigatedTo := none }

/-- The user record displayed by the Sidebar component (core fields of the
UserProfile interface; the open extension fields are elided). -/
structure SidebarUser where
  id : String
  name : String
  email : String
  createdAt : String
  updatedAt : String
deriving Repr, DecidableEq

/-- The hardcoded fallback record of the Sidebar profile effect
(src/unnamed/part_000 lines 440-447); the empty addresses list is elided. -/
def dummyPlaceholder : SidebarUser :=
  { id := "694a82e83d22a29abf6776ab", name := "Dummy User",
    email := "dummy@gmail.com", createdAt := "2025-12-23T11:54:16.111Z",
    updatedAt := "2025-12-23T11:54:16.111Z" }

/-- The Sidebar profile effect (src/unnamed/part_000 lines 432-454):
getProfile rethrows any fetch error, and the surrounding catch swallows it
(only logged) and stores the hardcoded dummy record instead. The pair
returned is the displayed record and the error surfaced to anything
beyond the component (always none). -/
def sidebarFetchUserProfile (result : Except AxiosError SidebarUser) :
    Option SidebarUser × Option AxiosError :=
  match result with
  | Except.ok u => (some u, none)
  | Except.error _ => (some dummyPlaceholder, none)

/-- C10: when the Header or Sidebar profile fetch fails with any error
whose status is not 401, the error is not surfaced: the component silently
substitutes its hardcoded placeholder record (Admin User in the Header,
Dummy User in the Sidebar), so the displayed record may be a fabricated
default. -/
theorem c10_profile_placeholder (e : AxiosError)
    (h : statusOf e ≠ some 401) :
    (headerFetchUserProfile (Except.error e)).userData = some adminPlaceholder
    ∧ (headerFetchUserProfile (Except.error e)).surfacedError = none
    ∧ (headerFetchUserProfile (Except.error e)).navigatedTo = none
    ∧ (sidebarFetchUserProfile (Except.error e)).1 = some dummyPlaceholder
    ∧ (sidebarFetchUserProfile (Except.error e)).2 = none := by
  refine ⟨?_, ?_, ?_, rfl, rfl⟩ <;> simp [headerFetchUserProfile, h]

/-- C10 witness: a 500 error on the profile fetch is swallowed and the
placeholder records are displayed. -/
theorem c10_profile_placeholder_witness :
    (headerFetchUserProfile (Except.error ⟨some ⟨500⟩, "boom"⟩)).userData =
      some adminPlaceholder
    ∧ (headerFetchUserProfile (Except.error ⟨some ⟨500⟩, "boom"⟩)).surfacedError = none
    ∧ (headerFetchUserProfile (Except.error ⟨some ⟨500⟩, "boom"⟩)).navigatedTo = none
    ∧ (sidebarFetchUserProfile (Except.error ⟨some ⟨500⟩, "boom"⟩)).1 =
      some dummyPlaceholder
    ∧ (sidebarFetchUserProfile (Except.error ⟨some ⟨500⟩, "boom"⟩)).2 = none :=
  c10_profile_placeholder ⟨some ⟨500⟩, "boom"⟩ (by decide)

end OsheenOracle
